import Mathlib

/-!
Shallow embedding of the text-adventure engine
(src/skills/text-adventure-engine/scripts/engine.py) in Lean 4.

Python values appearing inside the dynamically typed `requirements` /
`effects` dictionaries are modelled by the JSON-like type `Val`
(script data and save files are JSON, so these are the only value
shapes that occur).  Dictionaries are association lists with distinct
string keys, in insertion order, matching Python dict semantics.
Runtime exceptions (TypeError, AttributeError, NameError, ValueError)
are modelled explicitly: evaluation returns `Except String _`, and
stateful operations return an `Outcome` that carries the state at the
moment the exception escapes (Python mutates in place, so a raised
exception leaves prior mutations visible).
-/

inductive Val where
  | int (n : Int)
  | str (s : String)
  | bool (b : Bool)
  | null
  | list (xs : List Val)
  | dict (kvs : List (String × Val))
  deriving Repr

/-- Dictionary lookup: first binding of the key (Python dict keys are unique). -/
def lookupVal (kvs : List (String × Val)) (k : String) : Option Val :=
  match kvs.find? (fun p => p.1 == k) with
  | some p => some p.2
  | none => none

/-- Key membership in a Python dict with string keys. -/
def hasKey (kvs : List (String × Val)) (k : String) : Bool :=
  kvs.any (fun p => p.1 == k)

mutual

/-- Python equality (`==`) on `Val`: `bool` and `int` compare equal by
numeric value (`True == 1` in Python); lists compare pointwise; dicts
compare order-insensitively. -/
def pyEq : Val → Val → Bool
  | .int a, .int b => a == b
  | .int a, .bool b => a == (if b then (1 : Int) else 0)
  | .bool a, .int b => (if a then (1 : Int) else 0) == b
  | .bool a, .bool b => a == b
  | .str a, .str b => a == b
  | .null, .null => true
  | .list as, .list bs => pyEqList as bs
  | .dict as, .dict bs => as.length == bs.length && pyDictSub as bs
  | _, _ => false

def pyEqList : List Val → List Val → Bool
  | [], [] => true
  | a :: as, b :: bs => pyEq a b && pyEqList as bs
  | _, _ => false

/-- Every binding of the first dict is matched (by `pyEq`) in the second. -/
def pyDictSub : List (String × Val) → List (String × Val) → Bool
  | [], _ => true
  | (k, v) :: rest, bs =>
      (match lookupVal bs k with
       | some w => pyEq v w
       | none => false)
      && pyDictSub rest bs

end

/-- Python list membership (`x in xs`): equality scan, never raises. -/
def pyMemList (v : Val) (xs : List Val) : Bool :=
  xs.any (fun x => pyEq v x)

/-- Python hashability: scalars are hashable, lists and dicts are not.
Using an unhashable value as a dict key raises TypeError. -/
def hashable : Val → Bool
  | .list _ => false
  | .dict _ => false
  | _ => true

/-- Membership of a value among the (string) keys of a dict
(`v in d` for a Python dict `d`): raises TypeError if `v` is unhashable. -/
def pyMemDictKeys (v : Val) (kvs : List (String × Val)) : Except String Bool :=
  if hashable v then
    .ok (kvs.any (fun p => pyEq v (.str p.1)))
  else
    .error "TypeError: unhashable type"

/-- Python `d.get(v)` on a string-keyed dict: TypeError on unhashable key,
Python None (modelled as `Val.null`) when absent. -/
def pyDictGet (kvs : List (String × Val)) (v : Val) : Except String Val :=
  if hashable v then
    match v with
    | .str k =>
        match lookupVal kvs k with
        | some w => .ok w
        | none => .ok .null
    | _ => .ok .null
  else
    .error "TypeError: unhashable type"

/-- Python iteration over a value: lists yield elements, strings yield
one-character strings, dicts yield their keys; scalars raise TypeError. -/
def pyIter : Val → Except String (List Val)
  | .list xs => .ok xs
  | .str s => .ok (s.data.map (fun c => .str c.toString))
  | .dict kvs => .ok (kvs.map (fun p => .str p.1))
  | _ => .error "TypeError: object is not iterable"

/-- Python 2-tuple unpacking `a, b = v`: needs an iterable of exactly
two elements, otherwise TypeError/ValueError. -/
def pyUnpack2 (v : Val) : Except String (Val × Val) :=
  match pyIter v with
  | .error _ => .error "TypeError: cannot unpack non-iterable object"
  | .ok [a, b] => .ok (a, b)
  | .ok _ => .error "ValueError: wrong number of values to unpack"

/-- Numeric view used by Python arithmetic and comparisons with an int:
ints are themselves, bools coerce to 0/1, anything else raises TypeError. -/
def asInt : Val → Option Int
  | .int n => some n
  | .bool b => some (if b then 1 else 0)
  | _ => none

/-- Parsing `int(s)` on a string: optional surrounding whitespace, optional
sign, then a nonempty digit run; anything else raises ValueError. -/
def digitsVal : List Char → Option Nat
  | [] => none
  | cs =>
      if cs.all Char.isDigit then
        some (cs.foldl (fun acc c => acc * 10 + (c.toNat - 48)) 0)
      else
        none

def pyIntOfString (s : String) : Option Int :=
  match s.trim.data with
  | '-' :: rest => (digitsVal rest).map (fun n => -(n : Int))
  | '+' :: rest => (digitsVal rest).map (fun n => (n : Int))
  | cs => (digitsVal cs).map (fun n => (n : Int))

/-- The `GameState` dataclass (engine.py lines 49-71).  `inventory` and
`achievements` are `List Val` because the engine appends raw effect
values without type checks; `history` only ever receives f-string
results, hence `List String`; `stats` values are always produced by
integer arithmetic, hence `Int`. -/
structure GameState where
  current_scene : String := "start"
  hp : Int := 100
  morality : Int := 50
  size : Int := 100
  knowledge : Int := 0
  gold : Int := 0
  inventory : List Val := []
  achievements : List Val := []
  flags : List (String × Val) := []
  history : List String := []
  stats : List (String × Int) := []
  deriving Repr

/-- The default-constructed state (`GameState()` in engine.py). -/
def initState : GameState := {}

/-!
Requirement Evaluator (`TextAdventureEngine._check_requirements`,
engine.py lines 194-251).

Each requirement key is modelled by one check.  A check either raises
(`Except.error`), returns early from the function with `False`
(`Except.ok (some false)`), or falls through to the next check
(`Except.ok none`).  The code line `if not any(req in h for h in
self.state.history)` references the UNDEFINED name `req`: with a
nonempty history Python evaluates `req in h` and raises NameError;
with an empty history `any` of the empty generator is `False` without
ever evaluating the body, so the function returns `False`.
-/

def orElseCheck (a : Except String (Option Bool))
    (b : Unit → Except String (Option Bool)) : Except String (Option Bool) :=
  match a with
  | .error m => .error m
  | .ok (some r) => .ok (some r)
  | .ok none => b ()

def checkHasItem (reqs : List (String × Val)) (s : GameState) :
    Except String (Option Bool) :=
  match lookupVal reqs "has_item" with
  | none => .ok none
  | some v => if pyMemList v s.inventory then .ok none else .ok (some false)

def checkHasAnyItem (reqs : List (String × Val)) (s : GameState) :
    Except String (Option Bool) :=
  match lookupVal reqs "has_any_item" with
  | none => .ok none
  | some v =>
      match pyIter v with
      | .error m => .error m
      | .ok items =>
          if items.any (fun item => pyMemList item s.inventory) then .ok none
          else .ok (some false)

def checkHasAllItems (reqs : List (String × Val)) (s : GameState) :
    Except String (Option Bool) :=
  match lookupVal reqs "has_all_items" with
  | none => .ok none
  | some v =>
      match pyIter v with
      | .error m => .error m
      | .ok items =>
          if items.all (fun item => pyMemList item s.inventory) then .ok none
          else .ok (some false)

def checkFlag (reqs : List (String × Val)) (s : GameState) :
    Except String (Option Bool) :=
  match lookupVal reqs "flag" with
  | none => .ok none
  | some v =>
      match pyUnpack2 v with
      | .error m => .error m
      | .ok (flagName, flagValue) =>
          match pyDictGet s.flags flagName with
          | .error m => .error m
          | .ok w => if pyEq w flagValue then .ok none else .ok (some false)

def checkFlagSet (reqs : List (String × Val)) (s : GameState) :
    Except String (Option Bool) :=
  match lookupVal reqs "flag_set" with
  | none => .ok none
  | some v =>
      match pyMemDictKeys v s.flags with
      | .error m => .error m
      | .ok b => if b then .ok none else .ok (some false)

def checkFlagNotSet (reqs : List (String × Val)) (s : GameState) :
    Except String (Option Bool) :=
  match lookupVal reqs "flag_not_set" with
  | none => .ok none
  | some v =>
      match pyMemDictKeys v s.flags with
      | .error m => .error m
      | .ok b => if b then .ok (some false) else .ok none

/-- Reading `getattr(self.state, stat)` for the five built-in stat names. -/
def getStatAttr (s : GameState) (stat : String) : Int :=
  if stat == "morality" then s.morality
  else if stat == "size" then s.size
  else if stat == "hp" then s.hp
  else if stat == "knowledge" then s.knowledge
  else s.gold

def checkStatMinNamed (stat : String) (reqs : List (String × Val))
    (s : GameState) : Except String (Option Bool) :=
  match lookupVal reqs (stat ++ "_min") with
  | none => .ok none
  | some v =>
      match asInt v with
      | none => .error "TypeError: comparison not supported between instances"
      | some m => if getStatAttr s stat < m then .ok (some false) else .ok none

def checkStatMaxNamed (stat : String) (reqs : List (String × Val))
    (s : GameState) : Except String (Option Bool) :=
  match lookupVal reqs (stat ++ "_max") with
  | none => .ok none
  | some v =>
      match asInt v with
      | none => .error "TypeError: comparison not supported between instances"
      | some m => if getStatAttr s stat > m then .ok (some false) else .ok none

/-- The `for stat in ["morality", "size", "hp", "knowledge", "gold"]` loop. -/
def statRangeChecks (stats : List String) (reqs : List (String × Val))
    (s : GameState) : Except String (Option Bool) :=
  match stats with
  | [] => .ok none
  | stat :: rest =>
      orElseCheck (checkStatMinNamed stat reqs s)
        (fun _ => orElseCheck (checkStatMaxNamed stat reqs s)
          (fun _ => statRangeChecks rest reqs s))

def statGetD (stats : List (String × Int)) (k : String) (d : Int) : Int :=
  match stats.find? (fun p => p.1 == k) with
  | some p => p.2
  | none => d

def checkCustomStatMin (reqs : List (String × Val)) (s : GameState) :
    Except String (Option Bool) :=
  match lookupVal reqs "stat_min" with
  | none => .ok none
  | some v =>
      match pyUnpack2 v with
      | .error m => .error m
      | .ok (statName, minValue) =>
          if hashable statName then
            let current : Int :=
              match statName with
              | .str k => statGetD s.stats k 0
              | _ => 0
            match asInt minValue with
            | none => .error "TypeError: comparison not supported between instances"
            | some m => if current < m then .ok (some false) else .ok none
          else .error "TypeError: unhashable type"

def checkHasAchievement (reqs : List (String × Val)) (s : GameState) :
    Except String (Option Bool) :=
  match lookupVal reqs "has_achievement" with
  | none => .ok none
  | some v => if pyMemList v s.achievements then .ok none else .ok (some false)

/-- The `visited_scene` branch: the code body is
`if not any(req in h for h in self.state.history): return False` where
`req` is an undefined name. -/
def checkVisitedScene (reqs : List (String × Val)) (s : GameState) :
    Except String (Option Bool) :=
  match lookupVal reqs "visited_scene" with
  | none => .ok none
  | some _ =>
      match s.history with
      | [] => .ok (some false)
      | _ :: _ => .error "NameError: name req is not defined"

def runRequirementChecks (reqs : List (String × Val)) (s : GameState) :
    Except String (Option Bool) :=
  orElseCheck (checkHasItem reqs s) (fun _ =>
  orElseCheck (checkHasAnyItem reqs s) (fun _ =>
  orElseCheck (checkHasAllItems reqs s) (fun _ =>
  orElseCheck (checkFlag reqs s) (fun _ =>
  orElseCheck (checkFlagSet reqs s) (fun _ =>
  orElseCheck (checkFlagNotSet reqs s) (fun _ =>
  orElseCheck (statRangeChecks ["morality", "size", "hp", "knowledge", "gold"] reqs s) (fun _ =>
  orElseCheck (checkCustomStatMin reqs s) (fun _ =>
  orElseCheck (checkHasAchievement reqs s) (fun _ =>
  checkVisitedScene reqs s)))))))))

/-- The method `_check_requirements`: `None` or an empty dict is immediately true
(`if not requirements: return True`); otherwise the checks run in
source order and the function returns `True` if none of them returned
early. -/
def checkRequirements (reqs : Option (List (String × Val))) (s : GameState) :
    Except String Bool :=
  match reqs with
  | none => .ok true
  | some kvs =>
      if kvs.isEmpty then .ok true
      else
        match runRequirementChecks kvs s with
        | .error m => .error m
        | .ok (some b) => .ok b
        | .ok none => .ok true

/-!
Effect Applicator (`TextAdventureEngine._apply_effects`, engine.py
lines 310-371) and `_check_knowledge_achievements` (lines 373-378).

The Python method mutates `self.state` in place and has no exception
handling: when an effect raises, everything already executed stays
applied.  `Outcome` therefore carries the state at the moment the
exception escapes.
-/

inductive Outcome (α : Type) where
  | ok (a : α) (s : GameState)
  | exn (msg : String) (s : GameState)
  deriving Repr

/-- The state a stateful call leaves behind, whether it returned or raised. -/
def Outcome.state {α : Type} : Outcome α → GameState
  | .ok _ s => s
  | .exn _ s => s

/-- Sequencing of in-place mutation steps: a raised exception skips the
rest but keeps the mutations made so far. -/
def seqStep (r : Outcome Unit) (f : GameState → Outcome Unit) : Outcome Unit :=
  match r with
  | .ok _ s => f s
  | .exn m s => .exn m s

/-- The `for item in items: if item not in inv: inv.append(item)` loop. -/
def addUnique (inv : List Val) (items : List Val) : List Val :=
  items.foldl (fun acc item => if pyMemList item acc then acc else acc ++ [item]) inv

/-- Python `list.remove(x)`: drop the first element equal to `x`. -/
def removeFirstPy (v : Val) : List Val → List Val
  | [] => []
  | x :: xs => if pyEq v x then xs else x :: removeFirstPy v xs

/-- Python dict assignment `d[k] = v`: overwrite in place, else append. -/
def statSet (stats : List (String × Int)) (k : String) (v : Int) :
    List (String × Int) :=
  match stats with
  | [] => [(k, v)]
  | (k0, v0) :: rest =>
      if k0 == k then (k, v) :: rest else (k0, v0) :: statSet rest k v

def flagAssign (flags : List (String × Val)) (k : String) (v : Val) :
    List (String × Val) :=
  match flags with
  | [] => [(k, v)]
  | (k0, v0) :: rest =>
      if k0 == k then (k, v) :: rest else (k0, v0) :: flagAssign rest k v

/-- Python `del d[k]` for a key known to be present (unique keys). -/
def flagDel (flags : List (String × Val)) (k : String) : List (String × Val) :=
  flags.filter (fun p => p.1 != k)

/-- The method `_check_knowledge_achievements`: walk the configured
`knowledge_milestones` dict in insertion order; `int(threshold)` can
raise ValueError; every reached milestone not yet granted is appended. -/
def checkKnowledgeAchievements (milestones : List (String × Val))
    (s : GameState) : Outcome Unit :=
  match milestones with
  | [] => .ok () s
  | (threshold, achievement) :: rest =>
      match pyIntOfString threshold with
      | none => .exn "ValueError: invalid literal for int with base 10" s
      | some n =>
          if n ≤ s.knowledge then
            if pyMemList achievement s.achievements then
              checkKnowledgeAchievements rest s
            else
              checkKnowledgeAchievements rest
                {s with achievements := s.achievements ++ [achievement]}
          else
            checkKnowledgeAchievements rest s

def stepAddItem (eff : List (String × Val)) (s : GameState) : Outcome Unit :=
  match lookupVal eff "add_item" with
  | none => .ok () s
  | some item =>
      if pyMemList item s.inventory then .ok () s
      else .ok () {s with inventory := s.inventory ++ [item]}

def stepAddItems (eff : List (String × Val)) (s : GameState) : Outcome Unit :=
  match lookupVal eff "add_items" with
  | none => .ok () s
  | some v =>
      match pyIter v with
      | .error m => .exn m s
      | .ok items => .ok () {s with inventory := addUnique s.inventory items}

def stepRemoveItem (eff : List (String × Val)) (s : GameState) : Outcome Unit :=
  match lookupVal eff "remove_item" with
  | none => .ok () s
  | some item =>
      if pyMemList item s.inventory then
        .ok () {s with inventory := removeFirstPy item s.inventory}
      else .ok () s

def stepHpChange (eff : List (String × Val)) (s : GameState) : Outcome Unit :=
  match lookupVal eff "hp_change" with
  | none => .ok () s
  | some v =>
      match asInt v with
      | none => .exn "TypeError: unsupported operand types" s
      | some d => .ok () {s with hp := max 0 (min 100 (s.hp + d))}

def stepMoralityChange (eff : List (String × Val)) (s : GameState) : Outcome Unit :=
  match lookupVal eff "morality_change" with
  | none => .ok () s
  | some v =>
      match asInt v with
      | none => .exn "TypeError: unsupported operand types" s
      | some d => .ok () {s with morality := max 0 (min 100 (s.morality + d))}

def stepSizeChange (eff : List (String × Val)) (s : GameState) : Outcome Unit :=
  match lookupVal eff "size_change" with
  | none => .ok () s
  | some v =>
      match asInt v with
      | none => .exn "TypeError: unsupported operand types" s
      | some d => .ok () {s with size := max 0 (min 100 (s.size + d))}

def stepGoldChange (eff : List (String × Val)) (s : GameState) : Outcome Unit :=
  match lookupVal eff "gold_change" with
  | none => .ok () s
  | some v =>
      match asInt v with
      | none => .exn "TypeError: unsupported operand types" s
      | some d => .ok () {s with gold := max 0 (s.gold + d)}

/-- The statement `knowledge += delta` has NO clamp or floor in the source; the
milestone check runs right after. -/
def stepKnowledgeGain (eff : List (String × Val))
    (milestones : List (String × Val)) (s : GameState) : Outcome Unit :=
  match lookupVal eff "knowledge_gain" with
  | none => .ok () s
  | some v =>
      match asInt v with
      | none => .exn "TypeError: unsupported operand types" s
      | some d =>
          checkKnowledgeAchievements milestones {s with knowledge := s.knowledge + d}

def statChangeLoop (kvs : List (String × Val)) (s : GameState) : Outcome Unit :=
  match kvs with
  | [] => .ok () s
  | (k, v) :: rest =>
      match asInt v with
      | none => .exn "TypeError: unsupported operand types" s
      | some d =>
          statChangeLoop rest {s with stats := statSet s.stats k (statGetD s.stats k 0 + d)}

def stepStatChange (eff : List (String × Val)) (s : GameState) : Outcome Unit :=
  match lookupVal eff "stat_change" with
  | none => .ok () s
  | some (.dict kvs) => statChangeLoop kvs s
  | some _ => .exn "AttributeError: object has no attribute items" s

def stepSetFlag (eff : List (String × Val)) (s : GameState) : Outcome Unit :=
  match lookupVal eff "set_flag" with
  | none => .ok () s
  | some (.dict kvs) =>
      .ok () (kvs.foldl (fun acc p => {acc with flags := flagAssign acc.flags p.1 p.2}) s)
  | some _ => .exn "AttributeError: object has no attribute items" s

def stepClearFlag (eff : List (String × Val)) (s : GameState) : Outcome Unit :=
  match lookupVal eff "clear_flag" with
  | none => .ok () s
  | some v =>
      if hashable v then
        match v with
        | .str k =>
            if s.flags.any (fun p => p.1 == k) then
              .ok () {s with flags := flagDel s.flags k}
            else .ok () s
        | _ => .ok () s
      else .exn "TypeError: unhashable type" s

def stepAddAchievement (eff : List (String × Val)) (s : GameState) : Outcome Unit :=
  match lookupVal eff "add_achievement" with
  | none => .ok () s
  | some v =>
      if pyMemList v s.achievements then .ok () s
      else .ok () {s with achievements := s.achievements ++ [v]}

/-- The block `if "game_over" in effects: self.state.current_scene = "game_over"`. -/
def stepGameOver (eff : List (String × Val)) (s : GameState) : Outcome Unit :=
  if hasKey eff "game_over" then .ok () {s with current_scene := "game_over"}
  else .ok () s

def stepVictory (eff : List (String × Val)) (s : GameState) : Outcome Unit :=
  if hasKey eff "victory" then .ok () {s with current_scene := "victory"}
  else .ok () s

/-- The fixed order of the `if ... in effects` blocks in `_apply_effects`. -/
def effectSteps (eff milestones : List (String × Val)) :
    List (GameState → Outcome Unit) :=
  [stepAddItem eff, stepAddItems eff, stepRemoveItem eff, stepHpChange eff,
   stepMoralityChange eff, stepSizeChange eff, stepGoldChange eff,
   stepKnowledgeGain eff milestones, stepStatChange eff, stepSetFlag eff,
   stepClearFlag eff, stepAddAchievement eff, stepGameOver eff, stepVictory eff]

/-- The method `_apply_effects(effects)`: run every block in source order on the
shared mutable state; an exception aborts the rest but keeps earlier
mutations. -/
def applyEffects (eff milestones : List (String × Val)) (s : GameState) :
    Outcome Unit :=
  (effectSteps eff milestones).foldl seqStep (.ok () s)

/-!
Script Model and Transition Engine (`Choice`, `Scene` dataclasses and
`TextAdventureEngine`, engine.py lines 74-308 and 454-510).

Structure fields follow the dataclass annotations (`Optional[int]`
deltas, `Optional[Dict]` requirement/effect sets).  `Engine` holds the
data `__init__` derives from the script: the `id -> Scene` dict, the
raw `endings` list and `config["knowledge_milestones"]`.  The hook
lists are empty unless a caller registers callbacks; no hooks are
registered anywhere in the repository, so `_trigger_hooks` is a no-op
and is not modelled.
-/

structure Choice where
  text : String
  next_scene : String
  requirements : Option (List (String × Val)) := none
  effects : Option (List (String × Val)) := none
  morality_change : Option Int := none
  knowledge_gain : Option Int := none
  gold_change : Option Int := none
  hp_change : Option Int := none
  deriving Repr, Inhabited

structure Scene where
  id : String
  title : String
  description : String
  choices : List Choice
  image_prompt : Option String := none
  music : Option String := none
  narrator : Option String := none
  on_enter : Option (List (String × Val)) := none
  deriving Repr

/-- An entry of the `endings` list of the script (a raw dict in the code;
the fields the engine reads are `requirements` and `tier`). -/
structure Ending where
  title : String := ""
  requirements : Option (List (String × Val)) := none
  tier : Option String := none
  deriving Repr

structure Engine where
  scenes : List (String × Scene)
  endings : List Ending := []
  knowledge_milestones : List (String × Val) := []
  deriving Repr

/-- Scene lookup, `self.scenes.get(id)`. -/
def lookupScene (eng : Engine) (id : String) : Option Scene :=
  match eng.scenes.find? (fun p => p.1 == id) with
  | some p => some p.2
  | none => none

/-- Python truthiness of an `Optional[Dict]`: `None` and `{}` are falsy. -/
def truthyDict (d : Option (List (String × Val))) : Bool :=
  match d with
  | none => false
  | some kvs => !kvs.isEmpty

/-- The method `get_available_choices`: order-preserving filter of the current
choices of the current scene by `_check_requirements`; a requirement-evaluation
exception escapes. -/
def filterChoices (cs : List Choice) (s : GameState) :
    Except String (List Choice) :=
  match cs with
  | [] => .ok []
  | c :: rest =>
      match checkRequirements c.requirements s with
      | .error m => .error m
      | .ok true =>
          match filterChoices rest s with
          | .error m => .error m
          | .ok tail => .ok (c :: tail)
      | .ok false => filterChoices rest s

def getAvailableChoices (eng : Engine) (s : GameState) :
    Except String (List Choice) :=
  match lookupScene eng s.current_scene with
  | none => .ok []
  | some sc => filterChoices sc.choices s

/-- The method `make_choice(choice_index)` (engine.py lines 253-308): recompute
the filtered list, bounds-check, append history, apply the choice
effect set (if truthy), apply the four direct stat deltas, overwrite
`current_scene` with `choice.next_scene`, then apply the destination
truthy `on_enter` effects of the destination scene. -/
def makeChoice (eng : Engine) (choiceIndex : Int) (s : GameState) :
    Outcome Bool :=
  match getAvailableChoices eng s with
  | .error m => .exn m s
  | .ok choices =>
      if choiceIndex < 0 ∨ (choices.length : Int) ≤ choiceIndex then .ok false s
      else
        let choice := choices.getD choiceIndex.toNat default
        let s1 : GameState :=
          {s with history := s.history ++ [s.current_scene ++ ":" ++ choice.text]}
        let afterEffects : Outcome Unit :=
          if truthyDict choice.effects then
            applyEffects (choice.effects.getD []) eng.knowledge_milestones s1
          else .ok () s1
        match afterEffects with
        | .exn m s2 => .exn m s2
        | .ok _ s2 =>
            let s3 : GameState :=
              match choice.morality_change with
              | some d => {s2 with morality := max 0 (min 100 (s2.morality + d))}
              | none => s2
            let afterKnowledge : Outcome Unit :=
              match choice.knowledge_gain with
              | some d =>
                  checkKnowledgeAchievements eng.knowledge_milestones
                    {s3 with knowledge := s3.knowledge + d}
              | none => .ok () s3
            match afterKnowledge with
            | .exn m s4 => .exn m s4
            | .ok _ s4 =>
                let s5 : GameState :=
                  match choice.gold_change with
                  | some d => {s4 with gold := max 0 (s4.gold + d)}
                  | none => s4
                let s6 : GameState :=
                  match choice.hp_change with
                  | some d => {s5 with hp := max 0 (min 100 (s5.hp + d))}
                  | none => s5
                let s7 : GameState := {s6 with current_scene := choice.next_scene}
                match lookupScene eng s7.current_scene with
                | some sc =>
                    if truthyDict sc.on_enter then
                      match applyEffects (sc.on_enter.getD []) eng.knowledge_milestones s7 with
                      | .exn m s8 => .exn m s8
                      | .ok _ s8 => .ok true s8
                    else .ok true s7
                | none => .ok true s7

/-- The `"state"` sub-dictionary of the `render_scene` return value. -/
structure StateSnapshot where
  hp : Int
  morality : Int
  size : Int
  knowledge : Int
  gold : Int
  inventory : List Val
  achievements : List Val
  stats : List (String × Int)
  deriving Repr

inductive RenderResult where
  | errorResult (msg : String)
  | page (title description : String) (choices : List (Nat × String))
      (snapshot : StateSnapshot)
      (image_prompt music narrator : Option String)
  deriving Repr

/-- The method `render_scene` (engine.py lines 454-484).  The method only reads
state; the returned pair couples its result with the state it leaves
behind, which is the untouched input. -/
def renderScene (eng : Engine) (s : GameState) :
    Except String RenderResult × GameState :=
  match lookupScene eng s.current_scene with
  | none => (.ok (.errorResult "Scene not found"), s)
  | some sc =>
      match getAvailableChoices eng s with
      | .error m => (.error m, s)
      | .ok cs =>
          (.ok (.page sc.title sc.description
              (cs.enum.map (fun p => (p.1, p.2.text)))
              ⟨s.hp, s.morality, s.size, s.knowledge, s.gold,
               s.inventory, s.achievements, s.stats⟩
              sc.image_prompt sc.music sc.narrator),
           s)

/-- Phase 1 of `get_ending`: first ending with a truthy `requirements`
entry that `_check_requirements` accepts. -/
def findRequirementEnding (endings : List Ending) (s : GameState) :
    Except String (Option Ending) :=
  match endings with
  | [] => .ok none
  | e :: rest =>
      if truthyDict e.requirements then
        match checkRequirements e.requirements s with
        | .error m => .error m
        | .ok true => .ok (some e)
        | .ok false => findRequirementEnding rest s
      else findRequirementEnding rest s

/-- The method `get_ending` (engine.py lines 486-510). -/
def getEnding (eng : Engine) (s : GameState) : Except String (Option Ending) :=
  match findRequirementEnding eng.endings s with
  | .error m => .error m
  | .ok (some e) => .ok (some e)
  | .ok none =>
      if s.morality ≥ 80 then
        .ok (eng.endings.find? (fun e => e.tier == some "perfect"))
      else if s.morality ≥ 60 then
        .ok (eng.endings.find? (fun e => e.tier == some "good"))
      else if s.morality ≥ 40 then
        .ok (eng.endings.find? (fun e => e.tier == some "neutral"))
      else
        .ok (eng.endings.find? (fun e => e.tier == some "bad"))

/-!
Persistence Layer (`save_game` lines 380-407, `load_game` lines
409-433).  `save_game` serializes `self.state.to_dict()` (dataclass
`asdict`) inside a wrapper dict and writes it as JSON; `load_game`
parses the JSON and rebuilds the state with `GameState(**save_data["state"])`.
`json.dump`/`json.load` are mutually inverse on JSON values, and `Val`
is exactly the JSON value universe, so the file round trip is the
identity on the `Val` tree and is modelled as such; the nondeterministic
`timestamp` and the script-supplied `game_info`/`version` are parameters.
-/

/-- The method `GameState.to_dict` (dataclass `asdict`: field order). -/
def toDict (s : GameState) : Val :=
  .dict [("current_scene", .str s.current_scene), ("hp", .int s.hp),
         ("morality", .int s.morality), ("size", .int s.size),
         ("knowledge", .int s.knowledge), ("gold", .int s.gold),
         ("inventory", .list s.inventory), ("achievements", .list s.achievements),
         ("flags", .dict s.flags), ("history", .list (s.history.map Val.str)),
         ("stats", .dict (s.stats.map (fun p => (p.1, Val.int p.2))))]

def gameStateFieldNames : List String :=
  ["current_scene", "hp", "morality", "size", "knowledge", "gold",
   "inventory", "achievements", "flags", "history", "stats"]

def decodeStrField (kvs : List (String × Val)) (k : String) (d : String) :
    Option String :=
  match lookupVal kvs k with
  | none => some d
  | some (.str x) => some x
  | some _ => none

def decodeIntField (kvs : List (String × Val)) (k : String) (d : Int) :
    Option Int :=
  match lookupVal kvs k with
  | none => some d
  | some (.int n) => some n
  | some _ => none

def decodeListField (kvs : List (String × Val)) (k : String) :
    Option (List Val) :=
  match lookupVal kvs k with
  | none => some []
  | some (.list xs) => some xs
  | some _ => none

def decodeDictField (kvs : List (String × Val)) (k : String) :
    Option (List (String × Val)) :=
  match lookupVal kvs k with
  | none => some []
  | some (.dict d) => some d
  | some _ => none

def decodeStrList (xs : List Val) : Option (List String) :=
  match xs with
  | [] => some []
  | .str x :: rest => (decodeStrList rest).map (fun l => x :: l)
  | _ => none

def decodeStatPairs (kvs : List (String × Val)) : Option (List (String × Int)) :=
  match kvs with
  | [] => some []
  | (k, .int n) :: rest => (decodeStatPairs rest).map (fun l => (k, n) :: l)
  | _ => none

def decodeStrListField (kvs : List (String × Val)) (k : String) :
    Option (List String) :=
  match lookupVal kvs k with
  | none => some []
  | some (.list xs) => decodeStrList xs
  | some _ => none

def decodeStatsField (kvs : List (String × Val)) (k : String) :
    Option (List (String × Int)) :=
  match lookupVal kvs k with
  | none => some []
  | some (.dict d) => decodeStatPairs d
  | some _ => none

/-- The classmethod `GameState.from_dict` = `GameState(**data)`: rejects non-dict data
and unknown keys (TypeError), missing fields take the dataclass
defaults.  Python performs no value type-checks; the decoder covers
exactly the values representable in the typed model, which includes
everything `to_dict` produces. -/
def fromDict (v : Val) : Option GameState :=
  match v with
  | .dict kvs =>
      if kvs.all (fun p => gameStateFieldNames.contains p.1) then
        match decodeStrField kvs "current_scene" "start" with
        | none => none
        | some cs =>
        match decodeIntField kvs "hp" 100 with
        | none => none
        | some hp =>
        match decodeIntField kvs "morality" 50 with
        | none => none
        | some morality =>
        match decodeIntField kvs "size" 100 with
        | none => none
        | some size =>
        match decodeIntField kvs "knowledge" 0 with
        | none => none
        | some knowledge =>
        match decodeIntField kvs "gold" 0 with
        | none => none
        | some gold =>
        match decodeListField kvs "inventory" with
        | none => none
        | some inventory =>
        match decodeListField kvs "achievements" with
        | none => none
        | some achievements =>
        match decodeDictField kvs "flags" with
        | none => none
        | some flags =>
        match decodeStrListField kvs "history" with
        | none => none
        | some history =>
        match decodeStatsField kvs "stats" with
        | none => none
        | some stats =>
            some ⟨cs, hp, morality, size, knowledge, gold, inventory,
                  achievements, flags, history, stats⟩
      else none
  | _ => none

/-- The method `save_game`: the JSON document written to the slot file. -/
def saveGame (gameInfo : Val) (timestamp : String) (version : Val)
    (s : GameState) : Val :=
  .dict [("game_info", gameInfo), ("state", toDict s),
         ("timestamp", .str timestamp), ("version", version)]

/-- The method `load_game` applied to a parsed save document:
`GameState.from_dict(save_data["state"])`. -/
def loadGame (saveData : Val) : Option GameState :=
  match saveData with
  | .dict kvs =>
      match lookupVal kvs "state" with
      | some st => fromDict st
      | none => none
  | _ => none

/-!
Derived definitions used to state the claims, plus the concrete
fixtures the witnesses evaluate.
-/

/-- The requirement keys `_check_requirements` inspects; every other
key is never read. -/
def recognizedRequirementKeys : List String :=
  ["has_item", "has_any_item", "has_all_items", "flag", "flag_set",
   "flag_not_set", "morality_min", "morality_max", "size_min", "size_max",
   "hp_min", "hp_max", "knowledge_min", "knowledge_max", "gold_min",
   "gold_max", "stat_min", "has_achievement", "visited_scene"]

/-- The documented range invariant: hp, morality, size in [0, 100],
gold nonnegative.  (Knowledge is deliberately absent: the code never
floors it.) -/
def statBounds (s : GameState) : Prop :=
  0 ≤ s.hp ∧ s.hp ≤ 100 ∧ 0 ≤ s.morality ∧ s.morality ≤ 100 ∧
  0 ≤ s.size ∧ s.size ≤ 100 ∧ 0 ≤ s.gold

def isDictVal : Val → Bool
  | .dict _ => true
  | _ => false

def isOkTrue (r : Except String Bool) : Bool :=
  match r with
  | .ok true => true
  | _ => false

/-- The four-band morality lookup of the spec (engine.py lines 502-510). -/
def moralityTier (m : Int) : String :=
  if m ≥ 80 then "perfect"
  else if m ≥ 60 then "good"
  else if m ≥ 40 then "neutral"
  else "bad"

/-- Ending resolution as the spec words it: the first declared ending
whose declared requirements evaluate true against the state, else the
first ending whose tier matches the morality band, else absent. -/
def endingResolutionSpec (endings : List Ending) (s : GameState) : Option Ending :=
  match endings.find? (fun e =>
      truthyDict e.requirements && isOkTrue (checkRequirements e.requirements s)) with
  | some e => some e
  | none => endings.find? (fun e => e.tier == some (moralityTier s.morality))

/-- The scene a successful transition ends on, as a function of the
jump target alone: the truthy `on_enter` set of the destination can redirect
to `victory` (checked last in `_apply_effects`, so it wins) or
`game_over`; otherwise the target stands. -/
def sceneAfterEnter (eng : Engine) (target : String) : String :=
  match lookupScene eng target with
  | none => target
  | some sc =>
      if truthyDict sc.on_enter then
        if hasKey (sc.on_enter.getD []) "victory" then "victory"
        else if hasKey (sc.on_enter.getD []) "game_over" then "game_over"
        else target
      else target

/-- Fixture: a one-scene script with a single unguarded choice. -/
def chW6 : Choice where
  text := "go"
  next_scene := "cliff"

def engW6 : Engine where
  scenes := [("start", { id := "start", title := "Start", description := "A road.",
                         choices := [chW6] })]

/-- Fixture: an ending gated on an item the player lacks, and a
tier-matched fallback ending. -/
def endingSpecial : Ending where
  title := "special"
  requirements := some [("has_item", Val.str "key")]

def endingNeutral : Ending where
  title := "wanderer"
  tier := some "neutral"

def engW7 : Engine where
  scenes := []
  endings := [endingSpecial, endingNeutral]

/-- Fixture: a choice whose own effect set contains `game_over`, while
`next_scene` points at a plain scene. -/
def ch10 : Choice where
  text := "go"
  next_scene := "cliff"
  effects := some [("game_over", Val.bool true)]

def eng10 : Engine where
  scenes := [("start", { id := "start", title := "Start", description := "A road.",
                         choices := [ch10] }),
             ("cliff", { id := "cliff", title := "Cliff", description := "The edge.",
                         choices := [] })]

/-- The state `make_choice(0)` produces on `eng10` from the initial state. -/
def s10final : GameState := {initState with current_scene := "cliff",
                                            history := ["start:go"]}

/-!
Theorems settling the claims.  Helper lemmas carry no claim id.
-/

/-- C3 (counterexample): a `flag` requirement whose value is the single
scalar `5` does NOT make `_check_requirements` return false; the
tuple unpacking `flag_name, flag_value = requirements["flag"]` raises a
TypeError instead, so the claim that malformed predicate shapes fail
closed is false on the code. -/
theorem flag_scalar_not_fail_closed_cex :
    checkRequirements (some [("flag", Val.int 5)]) initState ≠ .ok false ∧
    checkRequirements (some [("flag", Val.int 5)]) initState =
      .error "TypeError: cannot unpack non-iterable object" := by
  constructor
  · intro h
    rw [show checkRequirements (some [("flag", Val.int 5)]) initState =
        .error "TypeError: cannot unpack non-iterable object" from rfl] at h
    exact Except.noConfusion h
  · rfl

/-- C3 (amended): for every state, evaluating a requirement set whose
`flag` entry is a bare integer scalar raises a TypeError (the
evaluation errors); the malformed shape is not converted into an unmet
requirement. -/
theorem flag_scalar_raises_type_error (s : GameState) (n : Int) :
    checkRequirements (some [("flag", Val.int n)]) s =
      .error "TypeError: cannot unpack non-iterable object" := rfl

/-- C4: evaluating a `visited_scene` (historyContains) requirement
against a state with nonempty history raises a NameError, because line
248 of engine.py tests `req in h` with `req` an undefined name; the
predicate can never perform the substring check the claim describes. -/
theorem visited_scene_raises_name_error :
    checkRequirements (some [("visited_scene", Val.str "start")])
        {initState with history := ["start:go"]} =
      .error "NameError: name req is not defined" := rfl

/-- C1 (counterexample): applying the effect set
`{"knowledge_gain": -5}` to the default state leaves knowledge at -5:
`_apply_effects` never floors knowledge at 0, refuting the claimed
`knowledge >= 0` invariant. -/
theorem negative_knowledge_gain_cex :
    (applyEffects [("knowledge_gain", Val.int (-5))] [] initState).state.knowledge < 0 := by
  decide

/-- C2 (counterexample): applying
`{"add_item": "torch", "set_flag": 5}` to the default state raises (the
non-mapping `set_flag` value), yet the state afterwards differs from
the pre-call state - the `add_item` effect stuck.  Effect application
is therefore not transactional and nothing is rolled back. -/
theorem effects_not_rolled_back_cex :
    (applyEffects [("add_item", Val.str "torch"), ("set_flag", Val.int 5)] []
        initState).state ≠ initState := by
  intro h
  have h2 := congrArg GameState.inventory h
  rw [show (applyEffects [("add_item", Val.str "torch"), ("set_flag", Val.int 5)] []
        initState).state.inventory = [Val.str "torch"] from rfl] at h2
  rw [show initState.inventory = [] from rfl] at h2
  exact List.noConfusion h2

/-- C8: `render_scene` is side-effect-free - the state it leaves
behind is exactly the input state - and calling it twice with no
transition in between returns structurally equal results. -/
theorem renderScene_idempotent (eng : Engine) (s : GameState) :
    (renderScene eng s).2 = s ∧
      renderScene eng (renderScene eng s).2 = renderScene eng s := by
  have h2 : (renderScene eng s).2 = s := by
    unfold renderScene
    cases lookupScene eng s.current_scene with
    | none => rfl
    | some sc =>
        cases getAvailableChoices eng s with
        | error m => rfl
        | ok cs => rfl
  exact ⟨h2, by rw [h2]⟩

/-- C6: when the index is out of bounds for the freshly recomputed
filtered choice list (negative, or at least its length), `make_choice`
returns `False` as a value - no exception - and the entire Player
State is left untouched. -/
theorem makeChoice_out_of_bounds (eng : Engine) (idx : Int) (s : GameState)
    (cs : List Choice) (hcs : getAvailableChoices eng s = .ok cs)
    (hidx : idx < 0 ∨ (cs.length : Int) ≤ idx) :
    makeChoice eng idx s = .ok false s := by
  unfold makeChoice
  rw [hcs]
  exact if_pos hidx

/-- Witness for C6 at a concrete one-choice script and index 5. -/
theorem makeChoice_out_of_bounds_wit :
    getAvailableChoices engW6 initState = .ok [chW6] ∧
      makeChoice engW6 5 initState = .ok false initState :=
  ⟨rfl, makeChoice_out_of_bounds engW6 5 initState [chW6] rfl (Or.inr (by decide))⟩

theorem lookupVal_none (reqs : List (String × Val)) (k : String)
    (h : ∀ p ∈ reqs, p.1 ≠ k) : lookupVal reqs k = none := by
  unfold lookupVal
  rw [List.find?_eq_none.mpr]
  intro p hp
  simp [h p hp]

/-- C5: a requirement set all of whose keys are unrecognized evaluates
to true - unknown keys are silently ignored, never errors, and never
make a choice ineligible. -/
theorem unknown_keys_ignored (reqs : List (String × Val)) (s : GameState)
    (h : ∀ p ∈ reqs, p.1 ∉ recognizedRequirementKeys) :
    checkRequirements (some reqs) s = .ok true := by
  have hk : ∀ k, k ∈ recognizedRequirementKeys → lookupVal reqs k = none := by
    intro k hkmem
    apply lookupVal_none
    intro p hp hpk
    exact h p hp (hpk ▸ hkmem)
  have h1 : lookupVal reqs "has_item" = none := hk _ (by decide)
  have h2 : lookupVal reqs "has_any_item" = none := hk _ (by decide)
  have h3 : lookupVal reqs "has_all_items" = none := hk _ (by decide)
  have h4 : lookupVal reqs "flag" = none := hk _ (by decide)
  have h5 : lookupVal reqs "flag_set" = none := hk _ (by decide)
  have h6 : lookupVal reqs "flag_not_set" = none := hk _ (by decide)
  have h7 : lookupVal reqs "morality_min" = none := hk _ (by decide)
  have h8 : lookupVal reqs "morality_max" = none := hk _ (by decide)
  have h9 : lookupVal reqs "size_min" = none := hk _ (by decide)
  have h10 : lookupVal reqs "size_max" = none := hk _ (by decide)
  have h11 : lookupVal reqs "hp_min" = none := hk _ (by decide)
  have h12 : lookupVal reqs "hp_max" = none := hk _ (by decide)
  have h13 : lookupVal reqs "knowledge_min" = none := hk _ (by decide)
  have h14 : lookupVal reqs "knowledge_max" = none := hk _ (by decide)
  have h15 : lookupVal reqs "gold_min" = none := hk _ (by decide)
  have h16 : lookupVal reqs "gold_max" = none := hk _ (by decide)
  have h17 : lookupVal reqs "stat_min" = none := hk _ (by decide)
  have h18 : lookupVal reqs "has_achievement" = none := hk _ (by decide)
  have h19 : lookupVal reqs "visited_scene" = none := hk _ (by decide)
  simp [checkRequirements, runRequirementChecks, orElseCheck, checkHasItem,
        checkHasAnyItem, checkHasAllItems, checkFlag, checkFlagSet,
        checkFlagNotSet, statRangeChecks, checkStatMinNamed, checkStatMaxNamed,
        checkCustomStatMin, checkHasAchievement, checkVisitedScene,
        h1, h2, h3, h4, h5, h6, h7, h8, h9, h10, h11, h12, h13, h14, h15,
        h16, h17, h18, h19]

/-- Witness for C5 on a concrete two-key unrecognized requirement set. -/
theorem unknown_keys_ignored_wit :
    (∀ p ∈ [("frobnicate", Val.int 1), ("zork", Val.str "x")],
        p.1 ∉ recognizedRequirementKeys) ∧
    checkRequirements (some [("frobnicate", Val.int 1), ("zork", Val.str "x")])
        initState = .ok true :=
  ⟨by decide, unknown_keys_ignored _ initState (by decide)⟩

theorem decodeStrList_map (l : List String) : decodeStrList (l.map Val.str) = some l := by
  induction l with
  | nil => rfl
  | cons x xs ih => simp [decodeStrList, ih]

theorem decodeStatPairs_map (l : List (String × Int)) :
    decodeStatPairs (l.map (fun p => (p.1, Val.int p.2))) = some l := by
  induction l with
  | nil => rfl
  | cons x xs ih =>
      obtain ⟨k, n⟩ := x
      simp [decodeStatPairs, ih]

/-- C9: loading the document `save_game` writes for any Player State
reproduces that state exactly - every field (current scene, the five
stats, inventory, achievements, flags, history, custom stats) round
trips, for arbitrary game info, timestamp and version metadata. -/
theorem save_load_round_trip (gameInfo : Val) (timestamp : String)
    (version : Val) (s : GameState) :
    loadGame (saveGame gameInfo timestamp version s) = some s := by
  simp [loadGame, saveGame, lookupVal, toDict, fromDict, gameStateFieldNames,
        decodeStrField, decodeIntField, decodeListField, decodeDictField,
        decodeStrListField, decodeStatsField, decodeStrList_map, decodeStatPairs_map]

theorem seqStep_ok (a : Unit) (t : GameState) (f : GameState → Outcome Unit) :
    seqStep (.ok a t) f = f t := rfl

theorem seqStep_exn (m : String) (t : GameState) (f : GameState → Outcome Unit) :
    seqStep (.exn m t) f = .exn m t := rfl

theorem seqStep_state_pred (P : GameState → Prop) (r : Outcome Unit)
    (f : GameState → Outcome Unit) (hf : ∀ t, P t → P (f t).state)
    (hr : P r.state) : P ((seqStep r f).state) := by
  cases r with
  | ok a t => exact hf t hr
  | exn m t => exact hr

theorem foldl_seqStep_pred (P : GameState → Prop) :
    ∀ (fs : List (GameState → Outcome Unit)) (r : Outcome Unit),
      (∀ f ∈ fs, ∀ t, P t → P (f t).state) → P r.state →
      P ((fs.foldl seqStep r).state) := by
  intro fs
  induction fs with
  | nil => intro r _ hr; exact hr
  | cons f rest ih =>
      intro r hfs hr
      simp only [List.foldl]
      apply ih
      · intro g hg t ht; exact hfs g (List.mem_cons_of_mem f hg) t ht
      · exact seqStep_state_pred P r f (hfs f (List.mem_cons_self f rest)) hr

theorem stepAddItem_bounds (eff : List (String × Val)) (t : GameState)
    (h : statBounds t) : statBounds (stepAddItem eff t).state := by
  unfold stepAddItem
  repeat' split
  all_goals exact h

theorem stepAddItems_bounds (eff : List (String × Val)) (t : GameState)
    (h : statBounds t) : statBounds (stepAddItems eff t).state := by
  unfold stepAddItems
  repeat' split
  all_goals exact h

theorem stepRemoveItem_bounds (eff : List (String × Val)) (t : GameState)
    (h : statBounds t) : statBounds (stepRemoveItem eff t).state := by
  unfold stepRemoveItem
  repeat' split
  all_goals exact h

theorem stepHpChange_bounds (eff : List (String × Val)) (t : GameState)
    (h : statBounds t) : statBounds (stepHpChange eff t).state := by
  unfold stepHpChange
  repeat' split
  all_goals try exact h
  all_goals simp only [statBounds, Outcome.state] at h ⊢
  all_goals omega

theorem stepMoralityChange_bounds (eff : List (String × Val)) (t : GameState)
    (h : statBounds t) : statBounds (stepMoralityChange eff t).state := by
  unfold stepMoralityChange
  repeat' split
  all_goals try exact h
  all_goals simp only [statBounds, Outcome.state] at h ⊢
  all_goals omega

theorem stepSizeChange_bounds (eff : List (String × Val)) (t : GameState)
    (h : statBounds t) : statBounds (stepSizeChange eff t).state := by
  unfold stepSizeChange
  repeat' split
  all_goals try exact h
  all_goals simp only [statBounds, Outcome.state] at h ⊢
  all_goals omega

theorem stepGoldChange_bounds (eff : List (String × Val)) (t : GameState)
    (h : statBounds t) : statBounds (stepGoldChange eff t).state := by
  unfold stepGoldChange
  repeat' split
  all_goals try exact h
  all_goals simp only [statBounds, Outcome.state] at h ⊢
  all_goals omega

theorem checkKnowledgeAchievements_bounds (ms : List (String × Val)) :
    ∀ t : GameState, statBounds t →
      statBounds (checkKnowledgeAchievements ms t).state := by
  induction ms with
  | nil => intro t h; exact h
  | cons p rest ih =>
      intro t h
      obtain ⟨thr, ach⟩ := p
      unfold checkKnowledgeAchievements
      repeat' split
      all_goals first
        | exact h
        | exact ih t h
        | exact ih _ h

theorem stepKnowledgeGain_bounds (eff ms : List (String × Val)) (t : GameState)
    (h : statBounds t) : statBounds (stepKnowledgeGain eff ms t).state := by
  unfold stepKnowledgeGain
  repeat' split
  all_goals first
    | exact h
    | exact checkKnowledgeAchievements_bounds ms _ h

theorem statChangeLoop_bounds (kvs : List (String × Val)) :
    ∀ t : GameState, statBounds t → statBounds (statChangeLoop kvs t).state := by
  induction kvs with
  | nil => intro t h; exact h
  | cons p rest ih =>
      intro t h
      obtain ⟨k, v⟩ := p
      unfold statChangeLoop
      repeat' split
      all_goals first
        | exact h
        | exact ih _ h

theorem stepStatChange_bounds (eff : List (String × Val)) (t : GameState)
    (h : statBounds t) : statBounds (stepStatChange eff t).state := by
  unfold stepStatChange
  repeat' split
  all_goals first
    | exact h
    | exact statChangeLoop_bounds _ t h

theorem flagAssignFold_bounds (kvs : List (String × Val)) :
    ∀ t : GameState, statBounds t →
      statBounds (kvs.foldl (fun acc p => {acc with flags := flagAssign acc.flags p.1 p.2}) t) := by
  induction kvs with
  | nil => intro t h; exact h
  | cons p rest ih =>
      intro t h
      simp only [List.foldl]
      exact ih _ h

theorem stepSetFlag_bounds (eff : List (String × Val)) (t : GameState)
    (h : statBounds t) : statBounds (stepSetFlag eff t).state := by
  unfold stepSetFlag
  repeat' split
  all_goals first
    | exact h
    | exact flagAssignFold_bounds _ t h

theorem stepClearFlag_bounds (eff : List (String × Val)) (t : GameState)
    (h : statBounds t) : statBounds (stepClearFlag eff t).state := by
  unfold stepClearFlag
  repeat' split
  all_goals exact h

theorem stepAddAchievement_bounds (eff : List (String × Val)) (t : GameState)
    (h : statBounds t) : statBounds (stepAddAchievement eff t).state := by
  unfold stepAddAchievement
  repeat' split
  all_goals exact h

theorem stepGameOver_bounds (eff : List (String × Val)) (t : GameState)
    (h : statBounds t) : statBounds (stepGameOver eff t).state := by
  unfold stepGameOver
  repeat' split
  all_goals exact h

theorem stepVictory_bounds (eff : List (String × Val)) (t : GameState)
    (h : statBounds t) : statBounds (stepVictory eff t).state := by
  unfold stepVictory
  repeat' split
  all_goals exact h

/-- C1 (amended): for every Player State already satisfying the range
invariant (hp, morality, size in [0, 100], gold nonnegative) and every
effect set, the state `_apply_effects` leaves behind - even when it
raises part-way - still satisfies it: deltas to hp, morality and size
are clamped and gold is floored at 0.  Knowledge is deliberately not
part of the invariant; `negative_knowledge_gain_cex` shows it can go
negative. -/
theorem applyEffects_stat_bounds (eff ms : List (String × Val)) (s : GameState)
    (h : statBounds s) : statBounds ((applyEffects eff ms s).state) := by
  unfold applyEffects
  apply foldl_seqStep_pred
  · intro f hf t ht
    simp only [effectSteps, List.mem_cons, List.not_mem_nil, or_false] at hf
    rcases hf with rfl | rfl | rfl | rfl | rfl | rfl | rfl | rfl | rfl | rfl | rfl | rfl | rfl | rfl
    · exact stepAddItem_bounds eff t ht
    · exact stepAddItems_bounds eff t ht
    · exact stepRemoveItem_bounds eff t ht
    · exact stepHpChange_bounds eff t ht
    · exact stepMoralityChange_bounds eff t ht
    · exact stepSizeChange_bounds eff t ht
    · exact stepGoldChange_bounds eff t ht
    · exact stepKnowledgeGain_bounds eff ms t ht
    · exact stepStatChange_bounds eff t ht
    · exact stepSetFlag_bounds eff t ht
    · exact stepClearFlag_bounds eff t ht
    · exact stepAddAchievement_bounds eff t ht
    · exact stepGameOver_bounds eff t ht
    · exact stepVictory_bounds eff t ht
  · exact h

/-- Witness for C1 (amended) on the default state with an hp delta of
-250 and a gold delta of -7. -/
theorem applyEffects_stat_bounds_wit :
    statBounds initState ∧
      statBounds ((applyEffects [("hp_change", Val.int (-250)), ("gold_change", Val.int (-7))]
        [] initState).state) :=
  ⟨by refine ⟨?_, ?_, ?_, ?_, ?_, ?_, ?_⟩ <;> decide,
   applyEffects_stat_bounds _ [] initState
     (by refine ⟨?_, ?_, ?_, ?_, ?_, ?_, ?_⟩ <;> decide)⟩

/-- C2 (amended): effect application is not transactional.  For every
pre-state whose inventory lacks `item` and every non-mapping `set_flag`
value, applying `{"add_item": item, "set_flag": bad}` raises an
AttributeError (there is no `InvalidEffectError` anywhere in the code)
and the state it leaves behind has `item` appended: the effects
processed before the offending key remain applied, nothing is rolled
back. -/
theorem applyEffects_partial_on_malformed (s : GameState) (item bad : Val)
    (ms : List (String × Val)) (hbad : isDictVal bad = false)
    (hmem : pyMemList item s.inventory = false) :
    applyEffects [("add_item", item), ("set_flag", bad)] ms s =
      .exn "AttributeError: object has no attribute items"
        {s with inventory := s.inventory ++ [item]} := by
  have e1 : stepAddItem [("add_item", item), ("set_flag", bad)] s =
      .ok () {s with inventory := s.inventory ++ [item]} := by
    show (if pyMemList item s.inventory = true then Outcome.ok () s
          else Outcome.ok () {s with inventory := s.inventory ++ [item]}) =
        Outcome.ok () {s with inventory := s.inventory ++ [item]}
    rw [hmem]
    rfl
  have e10 : stepSetFlag [("add_item", item), ("set_flag", bad)]
      {s with inventory := s.inventory ++ [item]} =
      .exn "AttributeError: object has no attribute items"
        {s with inventory := s.inventory ++ [item]} := by
    cases bad with
    | dict kvs => simp [isDictVal] at hbad
    | int n => rfl
    | str a => rfl
    | bool b => rfl
    | null => rfl
    | list xs => rfl
  unfold applyEffects effectSteps
  simp only [List.foldl, seqStep_ok, seqStep_exn, e1]
  rw [show stepAddItems [("add_item", item), ("set_flag", bad)]
      {s with inventory := s.inventory ++ [item]} =
      .ok () {s with inventory := s.inventory ++ [item]} from rfl]
  simp only [seqStep_ok, seqStep_exn]
  rw [show stepRemoveItem [("add_item", item), ("set_flag", bad)]
      {s with inventory := s.inventory ++ [item]} =
      .ok () {s with inventory := s.inventory ++ [item]} from rfl]
  simp only [seqStep_ok, seqStep_exn]
  rw [show stepHpChange [("add_item", item), ("set_flag", bad)]
      {s with inventory := s.inventory ++ [item]} =
      .ok () {s with inventory := s.inventory ++ [item]} from rfl]
  simp only [seqStep_ok, seqStep_exn]
  rw [show stepMoralityChange [("add_item", item), ("set_flag", bad)]
      {s with inventory := s.inventory ++ [item]} =
      .ok () {s with inventory := s.inventory ++ [item]} from rfl]
  simp only [seqStep_ok, seqStep_exn]
  rw [show stepSizeChange [("add_item", item), ("set_flag", bad)]
      {s with inventory := s.inventory ++ [item]} =
      .ok () {s with inventory := s.inventory ++ [item]} from rfl]
  simp only [seqStep_ok, seqStep_exn]
  rw [show stepGoldChange [("add_item", item), ("set_flag", bad)]
      {s with inventory := s.inventory ++ [item]} =
      .ok () {s with inventory := s.inventory ++ [item]} from rfl]
  simp only [seqStep_ok, seqStep_exn]
  rw [show stepKnowledgeGain [("add_item", item), ("set_flag", bad)] ms
      {s with inventory := s.inventory ++ [item]} =
      .ok () {s with inventory := s.inventory ++ [item]} from rfl]
  simp only [seqStep_ok, seqStep_exn]
  rw [show stepStatChange [("add_item", item), ("set_flag", bad)]
      {s with inventory := s.inventory ++ [item]} =
      .ok () {s with inventory := s.inventory ++ [item]} from rfl]
  simp only [seqStep_ok, seqStep_exn]
  rw [e10]
  simp only [seqStep_exn]

/-- Witness for C2 (amended) at the default state with item `"torch"`
and the scalar `5` as the malformed `set_flag` value. -/
theorem applyEffects_partial_on_malformed_wit :
    isDictVal (Val.int 5) = false ∧
      pyMemList (Val.str "torch") initState.inventory = false ∧
      applyEffects [("add_item", Val.str "torch"), ("set_flag", Val.int 5)] [] initState =
        .exn "AttributeError: object has no attribute items"
          {initState with inventory := initState.inventory ++ [Val.str "torch"]} :=
  ⟨rfl, rfl,
   applyEffects_partial_on_malformed initState (Val.str "torch") (Val.int 5) [] rfl rfl⟩

theorem findRequirementEnding_eq_find (s : GameState) :
    ∀ endings : List Ending,
      (∀ e ∈ endings, truthyDict e.requirements = true →
        ∃ b, checkRequirements e.requirements s = .ok b) →
      findRequirementEnding endings s =
        .ok (endings.find? (fun e =>
          truthyDict e.requirements && isOkTrue (checkRequirements e.requirements s))) := by
  intro endings
  induction endings with
  | nil => intro h; rfl
  | cons e rest ih =>
      intro h
      unfold findRequirementEnding
      by_cases ht : truthyDict e.requirements = true
      · rw [if_pos ht]
        obtain ⟨b, hb⟩ := h e (List.mem_cons_self e rest) ht
        rw [hb]
        cases b with
        | true =>
            rw [List.find?_cons_of_pos]
            · simp [ht, hb, isOkTrue]
        | false =>
            rw [List.find?_cons_of_neg]
            · exact ih (fun e2 he2 => h e2 (List.mem_cons_of_mem e he2))
            · simp [ht, hb, isOkTrue]
      · rw [if_neg ht]
        rw [List.find?_cons_of_neg]
        · exact ih (fun e2 he2 => h e2 (List.mem_cons_of_mem e he2))
        · simp [ht]

/-- C7: whenever no requirement evaluation errors, `get_ending` returns
exactly what the spec describes: the first declared ending (in declared
order) with declared requirements that evaluate true against the
current state, or - if none matches - the first ending whose tier
matches the four-band morality lookup (80 or more gives perfect, 60 or
more good, 40 or more neutral, else bad), or `none` when no ending of
that tier exists. -/
theorem getEnding_resolution (eng : Engine) (s : GameState)
    (h : ∀ e ∈ eng.endings, truthyDict e.requirements = true →
      ∃ b, checkRequirements e.requirements s = .ok b) :
    getEnding eng s = .ok (endingResolutionSpec eng.endings s) := by
  unfold getEnding endingResolutionSpec
  rw [findRequirementEnding_eq_find s eng.endings h]
  cases hf : eng.endings.find? (fun e =>
      truthyDict e.requirements && isOkTrue (checkRequirements e.requirements s)) with
  | some e => rfl
  | none =>
      by_cases h80 : s.morality ≥ 80
      · simp [moralityTier, h80]
      · by_cases h60 : s.morality ≥ 60
        · simp [moralityTier, h80, h60]
        · by_cases h40 : s.morality ≥ 40
          · simp [moralityTier, h80, h60, h40]
          · simp [moralityTier, h80, h60, h40]

/-- Witness for C7: an item-gated ending the default state fails plus a
neutral-tier ending; morality 50 falls back to the neutral band. -/
theorem getEnding_resolution_wit :
    getEnding engW7 initState = .ok (some endingNeutral) := by
  have hh : ∀ e ∈ engW7.endings, truthyDict e.requirements = true →
      ∃ b, checkRequirements e.requirements initState = .ok b := by
    intro e he ht
    rw [show engW7.endings = [endingSpecial, endingNeutral] from rfl] at he
    rcases List.mem_cons.mp he with rfl | he2
    · exact ⟨false, rfl⟩
    rcases List.mem_cons.mp he2 with rfl | he3
    · exact absurd ht (by decide)
    · cases he3
  rw [getEnding_resolution engW7 initState hh]
  rfl

theorem stepAddItem_scene (eff : List (String × Val)) (t : GameState) :
    (stepAddItem eff t).state.current_scene = t.current_scene := by
  unfold stepAddItem
  repeat' split
  all_goals rfl

theorem stepAddItems_scene (eff : List (String × Val)) (t : GameState) :
    (stepAddItems eff t).state.current_scene = t.current_scene := by
  unfold stepAddItems
  repeat' split
  all_goals rfl

theorem stepRemoveItem_scene (eff : List (String × Val)) (t : GameState) :
    (stepRemoveItem eff t).state.current_scene = t.current_scene := by
  unfold stepRemoveItem
  repeat' split
  all_goals rfl

theorem stepHpChange_scene (eff : List (String × Val)) (t : GameState) :
    (stepHpChange eff t).state.current_scene = t.current_scene := by
  unfold stepHpChange
  repeat' split
  all_goals rfl

theorem stepMoralityChange_scene (eff : List (String × Val)) (t : GameState) :
    (stepMoralityChange eff t).state.current_scene = t.current_scene := by
  unfold stepMoralityChange
  repeat' split
  all_goals rfl

theorem stepSizeChange_scene (eff : List (String × Val)) (t : GameState) :
    (stepSizeChange eff t).state.current_scene = t.current_scene := by
  unfold stepSizeChange
  repeat' split
  all_goals rfl

theorem stepGoldChange_scene (eff : List (String × Val)) (t : GameState) :
    (stepGoldChange eff t).state.current_scene = t.current_scene := by
  unfold stepGoldChange
  repeat' split
  all_goals rfl

theorem checkKnowledgeAchievements_scene (ms : List (String × Val)) :
    ∀ t : GameState,
      (checkKnowledgeAchievements ms t).state.current_scene = t.current_scene := by
  induction ms with
  | nil => intro t; rfl
  | cons p rest ih =>
      intro t
      obtain ⟨thr, ach⟩ := p
      unfold checkKnowledgeAchievements
      repeat' split
      all_goals first
        | rfl
        | exact ih t
        | exact ih _

theorem stepKnowledgeGain_scene (eff ms : List (String × Val)) (t : GameState) :
    (stepKnowledgeGain eff ms t).state.current_scene = t.current_scene := by
  unfold stepKnowledgeGain
  repeat' split
  all_goals first
    | rfl
    | exact checkKnowledgeAchievements_scene ms _

theorem statChangeLoop_scene (kvs : List (String × Val)) :
    ∀ t : GameState, (statChangeLoop kvs t).state.current_scene = t.current_scene := by
  induction kvs with
  | nil => intro t; rfl
  | cons p rest ih =>
      intro t
      obtain ⟨k, v⟩ := p
      unfold statChangeLoop
      repeat' split
      all_goals first
        | rfl
        | exact ih _

theorem stepStatChange_scene (eff : List (String × Val)) (t : GameState) :
    (stepStatChange eff t).state.current_scene = t.current_scene := by
  unfold stepStatChange
  repeat' split
  all_goals first
    | rfl
    | exact statChangeLoop_scene _ t

theorem flagAssignFold_scene (kvs : List (String × Val)) :
    ∀ t : GameState,
      (kvs.foldl (fun acc p => {acc with flags := flagAssign acc.flags p.1 p.2}) t).current_scene =
        t.current_scene := by
  induction kvs with
  | nil => intro t; rfl
  | cons p rest ih =>
      intro t
      simp only [List.foldl]
      exact ih _

theorem stepSetFlag_scene (eff : List (String × Val)) (t : GameState) :
    (stepSetFlag eff t).state.current_scene = t.current_scene := by
  unfold stepSetFlag
  repeat' split
  all_goals first
    | rfl
    | exact flagAssignFold_scene _ t

theorem stepClearFlag_scene (eff : List (String × Val)) (t : GameState) :
    (stepClearFlag eff t).state.current_scene = t.current_scene := by
  unfold stepClearFlag
  repeat' split
  all_goals rfl

theorem stepAddAchievement_scene (eff : List (String × Val)) (t : GameState) :
    (stepAddAchievement eff t).state.current_scene = t.current_scene := by
  unfold stepAddAchievement
  repeat' split
  all_goals rfl

theorem applyEffects_scene (eff ms : List (String × Val)) (s s2 : GameState)
    (h : applyEffects eff ms s = .ok () s2) :
    s2.current_scene =
      if hasKey eff "victory" = true then "victory"
      else if hasKey eff "game_over" = true then "game_over"
      else s.current_scene := by
  unfold applyEffects at h
  rw [show effectSteps eff ms =
      [stepAddItem eff, stepAddItems eff, stepRemoveItem eff, stepHpChange eff,
       stepMoralityChange eff, stepSizeChange eff, stepGoldChange eff,
       stepKnowledgeGain eff ms, stepStatChange eff, stepSetFlag eff,
       stepClearFlag eff, stepAddAchievement eff] ++
      [stepGameOver eff, stepVictory eff] from rfl] at h
  rw [List.foldl_append] at h
  have h12 : (List.foldl seqStep (Outcome.ok () s)
      [stepAddItem eff, stepAddItems eff, stepRemoveItem eff, stepHpChange eff,
       stepMoralityChange eff, stepSizeChange eff, stepGoldChange eff,
       stepKnowledgeGain eff ms, stepStatChange eff, stepSetFlag eff,
       stepClearFlag eff, stepAddAchievement eff]).state.current_scene = s.current_scene := by
    apply foldl_seqStep_pred (fun t => t.current_scene = s.current_scene)
    · intro f hf t ht
      simp only [List.mem_cons, List.not_mem_nil, or_false] at hf
      rcases hf with rfl | rfl | rfl | rfl | rfl | rfl | rfl | rfl | rfl | rfl | rfl | rfl
      · exact (stepAddItem_scene eff t).trans ht
      · exact (stepAddItems_scene eff t).trans ht
      · exact (stepRemoveItem_scene eff t).trans ht
      · exact (stepHpChange_scene eff t).trans ht
      · exact (stepMoralityChange_scene eff t).trans ht
      · exact (stepSizeChange_scene eff t).trans ht
      · exact (stepGoldChange_scene eff t).trans ht
      · exact (stepKnowledgeGain_scene eff ms t).trans ht
      · exact (stepStatChange_scene eff t).trans ht
      · exact (stepSetFlag_scene eff t).trans ht
      · exact (stepClearFlag_scene eff t).trans ht
      · exact (stepAddAchievement_scene eff t).trans ht
    · rfl
  cases hre : List.foldl seqStep (Outcome.ok () s)
      [stepAddItem eff, stepAddItems eff, stepRemoveItem eff, stepHpChange eff,
       stepMoralityChange eff, stepSizeChange eff, stepGoldChange eff,
       stepKnowledgeGain eff ms, stepStatChange eff, stepSetFlag eff,
       stepClearFlag eff, stepAddAchievement eff] with
  | exn m t =>
      rw [hre] at h
      simp only [List.foldl, seqStep_exn] at h
      exact Outcome.noConfusion h
  | ok a t =>
      rw [hre] at h12 h
      simp only [Outcome.state] at h12
      simp only [List.foldl, seqStep_ok] at h
      unfold stepGameOver at h
      by_cases hgo : hasKey eff "game_over" = true
      · rw [if_pos hgo] at h
        simp only [seqStep_ok] at h
        unfold stepVictory at h
        by_cases hv : hasKey eff "victory" = true
        · rw [if_pos hv] at h
          injection h with h1 h2
          rw [← h2, if_pos hv]
        · rw [if_neg hv] at h
          injection h with h1 h2
          rw [← h2, if_neg hv, if_pos hgo]
      · rw [if_neg hgo] at h
        simp only [seqStep_ok] at h
        unfold stepVictory at h
        by_cases hv : hasKey eff "victory" = true
        · rw [if_pos hv] at h
          injection h with h1 h2
          rw [← h2, if_pos hv]
        · rw [if_neg hv] at h
          injection h with h1 h2
          rw [← h2, if_neg hv, if_neg hgo]
          exact h12

/-- C10: after every successful `make_choice`, the post-transition
scene equals `sceneAfterEnter` of the selected choice `next_scene` -
a function of the jump target and the destination `on_enter` set only.
In particular a `game_over` or `victory` jump inside the choice own
effect set is overwritten by the subsequent `next_scene` assignment and
never determines the final scene; only an `on_enter` jump can. -/
theorem makeChoice_scene_from_next_scene (eng : Engine) (idx : Int) (s : GameState)
    (cs : List Choice) (hcs : getAvailableChoices eng s = .ok cs)
    (c : Choice) (hc : cs.getD idx.toNat default = c)
    (sFin : GameState) (hmk : makeChoice eng idx s = .ok true sFin) :
    sFin.current_scene = sceneAfterEnter eng c.next_scene := by
  unfold makeChoice at hmk
  rw [hcs] at hmk
  simp only [] at hmk
  by_cases hbound : idx < 0 ∨ (cs.length : Int) ≤ idx
  · rw [if_pos hbound] at hmk
    injection hmk with hb hstate
    exact absurd hb (by simp)
  · rw [if_neg hbound] at hmk
    rw [hc] at hmk
    split at hmk
    all_goals try exact Outcome.noConfusion hmk
    all_goals split at hmk
    all_goals try exact Outcome.noConfusion hmk
    all_goals split at hmk
    all_goals try exact Outcome.noConfusion hmk
    · rename_i sc heqScene
      split at hmk
      · rename_i htruthy
        split at hmk
        · exact Outcome.noConfusion hmk
        · rename_i a s8 heqAE
          cases a
          injection hmk with hb hstate
          rw [← hstate]
          rw [applyEffects_scene _ _ _ _ heqAE]
          simp only [sceneAfterEnter, heqScene, htruthy]
          simp
      · rename_i htruthy
        injection hmk with hb hstate
        rw [← hstate]
        simp only [sceneAfterEnter, heqScene, htruthy]
        simp
    · rename_i heqNone
      injection hmk with hb hstate
      rw [← hstate]
      simp only [sceneAfterEnter, heqNone]

/-- Witness for C10: the fixture choice carries a `game_over` effect,
yet the transition ends on its `next_scene` target `"cliff"`. -/
theorem makeChoice_scene_from_next_scene_wit :
    makeChoice eng10 0 initState = .ok true s10final ∧
      s10final.current_scene = sceneAfterEnter eng10 ch10.next_scene :=
  ⟨rfl, makeChoice_scene_from_next_scene eng10 0 initState [ch10] rfl ch10 rfl s10final rfl⟩
